import Mathlib

/-!
Verification of the collaborative-canvas relay server (`src/server/server.js`,
with the identical handler in the unnamed variant file).  We give a shallow
embedding of the shared undo/redo history state
`(canvasStates, currentStateIndex)`, the `ws.on('message')` switch, the
`broadcastToAll` recipient selection and the periodic retention sweep, and
prove the documented properties of the Canvas History Engine against it.

Modelling conventions:
* `canvasStates` (a JavaScript array of snapshot strings) is a `List String`;
  `currentStateIndex` (which can be `-1` and, after a sweep, even smaller) is
  an `Int`.
* A message field whose JavaScript value is absent, `undefined` or `null` is
  modelled as `none`.
* JavaScript array reads `a[i]` out of range yield `undefined`, modelled as
  `none` by `jsIndex`; `a.splice(start)` and the `a[i] = v` write are modelled
  by `jsSpliceDeleteFrom` and `jsArraySet` with JavaScript's index clamping.
  The only divergence: a write at an index beyond the length would create
  holes, modelled here as `""` entries; no state reachable by the handlers
  performs such a write.
* `JSON.parse` failure (the `try/catch` around the handler) is modelled by the
  `none` case of `handleRawData`.
-/

/-- A canvas snapshot: the opaque encoded raster blob carried in
`message.stateData` and stored in the `canvasStates` array. -/
abbrev Snapshot := String

/-- An inbound client message as produced by `JSON.parse`: the `type` tag plus
the kind-specific fields the server reads (`userId`, `stateData`) and the
drawing fields it relays verbatim (`x`, `y`, `color`, `size`).  An absent,
`undefined` or `null` field is `none`. -/
structure InMessage where
  type : String
  userId : Option String := none
  stateData : Option Snapshot := none
  x : Option Int := none
  y : Option Int := none
  color : Option String := none
  size : Option Int := none
  deriving Repr, DecidableEq

/-- The server's shared history state: the module-level variables
`canvasStates` (array of snapshots) and `currentStateIndex` (integer cursor,
`-1` meaning blank canvas). -/
structure ServerState where
  canvasStates : List Snapshot
  currentStateIndex : Int
  deriving Repr, DecidableEq

/-- The state at server start: `canvasStates = []`, `currentStateIndex = -1`. -/
def initialState : ServerState := { canvasStates := [], currentStateIndex := -1 }

/-- JavaScript truthiness of the `message.stateData` field (a string or an
absent/`null` value): absent and `null` are falsy, and so is the empty
string. -/
def jsTruthy : Option Snapshot → Bool
  | none => false
  | some s => !(s == "")

/-- JavaScript array read `a[i]` with an integer index: an in-range index
yields the element, any other index yields `undefined` (`none`). -/
def jsIndex (l : List Snapshot) (i : Int) : Option Snapshot :=
  if 0 ≤ i then l.get? i.toNat else none

/-- JavaScript `a.splice(start)` (single-argument form): deletes every element
from index `start` to the end.  A negative `start` counts from the end of the
array; the retained prefix is `take` of the clamped start index. -/
def jsSpliceDeleteFrom (l : List Snapshot) (start : Int) : List Snapshot :=
  if start < 0 then l.take ((l.length : Int) + start).toNat
  else l.take start.toNat

/-- JavaScript array write `a[i] = v`: a negative index leaves the array
elements unchanged (it would set a plain object property), an in-range index
replaces the element, index `length` appends, and a larger index would pad
with holes (modelled as `""`; unreachable from the handlers). -/
def jsArraySet (l : List Snapshot) (i : Int) (v : Snapshot) : List Snapshot :=
  if i < 0 then l
  else if i.toNat < l.length then l.set i.toNat v
  else l ++ List.replicate (i.toNat - l.length) "" ++ [v]

/-- An outbound payload passed to `broadcastToAll`, one constructor per
`JSON.stringify` shape the message handler produces. -/
inductive WireMessage where
  | saveStateReq (userId : String)
  | undoB (stateIndex : Int) (stateData : Option Snapshot)
  | redoB (stateIndex : Int) (stateData : Option Snapshot)
  | clearB (userId : String)
  | relayDraw (m : InMessage)
  | relayOther (m : InMessage)
  deriving Repr, DecidableEq

/-- The result of one run of the message handler: the new history state plus
the list of `broadcastToAll(payload, excludeUserId)` calls it made, in
order. -/
structure HandlerResult where
  state : ServerState
  broadcasts : List (WireMessage × Option String)
  deriving Repr, DecidableEq

/-- One entry of the `connections` map: the participant's id, color, display
name and whether its socket's `readyState` is `OPEN`. -/
structure Participant where
  userId : String
  color : String
  name : String
  wsOpen : Bool
  deriving Repr, DecidableEq

/-- The recipient selection of `broadcastToAll(message, excludeUserId)`: every
registered participant whose id differs from the excluded one (when given) and
whose socket is open receives the message. -/
def broadcastTargets (conns : List Participant) (excludeUserId : Option String) :
    List Participant :=
  conns.filter (fun u => (some u.userId != excludeUserId) && u.wsOpen)

/-- The array after the truncation step of the `save-state` case: when the
cursor is strictly before the last index, `canvasStates.splice(currentStateIndex + 1)`
discards the redo tail; otherwise the array is left alone. -/
def saveStateTrimmed (st : ServerState) : List Snapshot :=
  if st.currentStateIndex < (st.canvasStates.length : Int) - 1 then
    jsSpliceDeleteFrom st.canvasStates (st.currentStateIndex + 1)
  else st.canvasStates

/-- The state produced by the `save-state` case when `stateData` is truthy:
truncate, then `currentStateIndex++` and
`canvasStates[currentStateIndex] = message.stateData`. -/
def saveStateCommit (st : ServerState) (v : Snapshot) : ServerState :=
  { canvasStates := jsArraySet (saveStateTrimmed st) (st.currentStateIndex + 1) v,
    currentStateIndex := st.currentStateIndex + 1 }

/-- The `ws.on('message')` switch for a connection whose server-assigned id is
`uid` and color is `userColor`, run on an already-parsed message `m` in state
`st`.  Mirrors the source case by case: `draw-end` re-broadcasts a
`save-state` request only when the inbound `userId` matches the connection's
id; `undo`/`redo` move the cursor and broadcast the snapshot now pointed at;
`clear` resets the history; `save-state` (when `stateData` is truthy) splices
off the redo tail and appends; `draw-start`/`draw-move` are relayed to
everyone but the sender with `userId` overwritten; any other tag is relayed
with `userId` and `color` overwritten. -/
def handleMessage (uid userColor : String) (st : ServerState) (m : InMessage) :
    HandlerResult :=
  if m.type = "draw-end" then
    if m.userId = some uid then
      { state := st, broadcasts := [(WireMessage.saveStateReq uid, none)] }
    else
      { state := st, broadcasts := [] }
  else if m.type = "undo" then
    if 0 < st.currentStateIndex then
      { state := { st with currentStateIndex := st.currentStateIndex - 1 },
        broadcasts := [(WireMessage.undoB (st.currentStateIndex - 1)
          (jsIndex st.canvasStates (st.currentStateIndex - 1)), none)] }
    else if st.currentStateIndex = 0 then
      { state := { st with currentStateIndex := -1 },
        broadcasts := [(WireMessage.undoB (-1) none, none)] }
    else
      { state := st, broadcasts := [] }
  else if m.type = "redo" then
    if st.currentStateIndex < (st.canvasStates.length : Int) - 1 then
      { state := { st with currentStateIndex := st.currentStateIndex + 1 },
        broadcasts := [(WireMessage.redoB (st.currentStateIndex + 1)
          (jsIndex st.canvasStates (st.currentStateIndex + 1)), none)] }
    else
      { state := st, broadcasts := [] }
  else if m.type = "clear" then
    { state := { canvasStates := [], currentStateIndex := -1 },
      broadcasts := [(WireMessage.clearB uid, none)] }
  else if m.type = "save-state" then
    if jsTruthy m.stateData then
      { state := saveStateCommit st (m.stateData.getD ""), broadcasts := [] }
    else
      { state := st, broadcasts := [] }
  else if m.type = "draw-start" ∨ m.type = "draw-move" then
    { state := st,
      broadcasts := [(WireMessage.relayDraw { m with userId := some uid }, some uid)] }
  else
    { state := st,
      broadcasts := [(WireMessage.relayOther
        { m with userId := some uid, color := some userColor }, some uid)] }

/-- The whole `ws.on('message')` callback: `JSON.parse` followed by the switch,
inside `try/catch`.  Raw data that does not parse is `none`: the catch logs
the error and returns, so the state is untouched, nothing is broadcast, and
no exception escapes (the function is total). -/
def handleRawData (uid userColor : String) (st : ServerState)
    (parsed : Option InMessage) : HandlerResult :=
  match parsed with
  | some m => handleMessage uid userColor st m
  | none => { state := st, broadcasts := [] }

/-- One firing of the `setInterval` retention sweep: when more than 50
snapshots are stored, `canvasStates.splice(0, statesToRemove)` drops the
oldest `statesToRemove = length - 50` entries and `currentStateIndex` is
lowered by the same amount. -/
def retentionSweep (st : ServerState) : ServerState :=
  if 50 < st.canvasStates.length then
    { canvasStates := st.canvasStates.drop (st.canvasStates.length - 50),
      currentStateIndex :=
        st.currentStateIndex - ((st.canvasStates.length : Int) - 50) }
  else st

/-- A history-affecting operation for invariant traces: a `save-state` message
carrying payload `d`, an `undo`, or a `redo`. -/
inductive HistOp where
  | push (d : Snapshot)
  | undo
  | redo
  deriving Repr, DecidableEq

/-- The inbound message corresponding to a `HistOp`. -/
def opToMessage : HistOp → InMessage
  | HistOp.push d => { type := "save-state", stateData := some d }
  | HistOp.undo => { type := "undo" }
  | HistOp.redo => { type := "redo" }

/-- The state transition of one `HistOp`.  The sender's id and color are
irrelevant to these three branches of the switch, so they are fixed. -/
def stepOp (st : ServerState) (op : HistOp) : ServerState :=
  (handleMessage "u" "c" st (opToMessage op)).state

/-- Run a sequence of history operations from a starting state. -/
def runOps (st : ServerState) : List HistOp → ServerState
  | [] => st
  | op :: ops => runOps (stepOp st op) ops

/-- The documented cursor invariant:
`-1 <= currentStateIndex <= canvasStates.length - 1`. -/
def histInv (st : ServerState) : Prop :=
  -1 ≤ st.currentStateIndex ∧
    st.currentStateIndex ≤ (st.canvasStates.length : Int) - 1

lemma handleMessage_drawEnd (uid userColor : String) (st : ServerState)
    (m : InMessage) (ht : m.type = "draw-end") :
    handleMessage uid userColor st m =
      if m.userId = some uid then
        { state := st, broadcasts := [(WireMessage.saveStateReq uid, none)] }
      else { state := st, broadcasts := [] } := by
  unfold handleMessage
  rw [ht, if_pos rfl]

lemma handleMessage_undo (uid userColor : String) (st : ServerState)
    (m : InMessage) (ht : m.type = "undo") :
    handleMessage uid userColor st m =
      if 0 < st.currentStateIndex then
        { state := { st with currentStateIndex := st.currentStateIndex - 1 },
          broadcasts := [(WireMessage.undoB (st.currentStateIndex - 1)
            (jsIndex st.canvasStates (st.currentStateIndex - 1)), none)] }
      else if st.currentStateIndex = 0 then
        { state := { st with currentStateIndex := -1 },
          broadcasts := [(WireMessage.undoB (-1) none, none)] }
      else { state := st, broadcasts := [] } := by
  unfold handleMessage
  rw [ht, if_neg (by decide), if_pos rfl]

lemma handleMessage_redo (uid userColor : String) (st : ServerState)
    (m : InMessage) (ht : m.type = "redo") :
    handleMessage uid userColor st m =
      if st.currentStateIndex < (st.canvasStates.length : Int) - 1 then
        { state := { st with currentStateIndex := st.currentStateIndex + 1 },
          broadcasts := [(WireMessage.redoB (st.currentStateIndex + 1)
            (jsIndex st.canvasStates (st.currentStateIndex + 1)), none)] }
      else { state := st, broadcasts := [] } := by
  unfold handleMessage
  rw [ht, if_neg (by decide), if_neg (by decide), if_pos rfl]

lemma handleMessage_saveState_truthy (uid userColor : String) (st : ServerState)
    (m : InMessage) (ht : m.type = "save-state")
    (htr : jsTruthy m.stateData = true) :
    handleMessage uid userColor st m =
      { state := saveStateCommit st (m.stateData.getD ""), broadcasts := [] } := by
  unfold handleMessage
  rw [ht, if_neg (by decide), if_neg (by decide), if_neg (by decide),
    if_neg (by decide), if_pos rfl, if_pos htr]

lemma handleMessage_saveState_falsy (uid userColor : String) (st : ServerState)
    (m : InMessage) (ht : m.type = "save-state")
    (htr : jsTruthy m.stateData = false) :
    handleMessage uid userColor st m = { state := st, broadcasts := [] } := by
  unfold handleMessage
  rw [ht, if_neg (by decide), if_neg (by decide), if_neg (by decide),
    if_neg (by decide), if_pos rfl, if_neg (by simp [htr])]

lemma handleMessage_draw (uid userColor : String) (st : ServerState)
    (m : InMessage) (ht : m.type = "draw-start" ∨ m.type = "draw-move") :
    handleMessage uid userColor st m =
      { state := st,
        broadcasts := [(WireMessage.relayDraw { m with userId := some uid },
          some uid)] } := by
  unfold handleMessage
  rcases ht with h | h <;>
    rw [h, if_neg (by decide), if_neg (by decide), if_neg (by decide),
      if_neg (by decide), if_neg (by decide), if_pos (by simp)]

lemma saveStateCommit_eq (st : ServerState) (v : Snapshot)
    (hlo : -1 ≤ st.currentStateIndex)
    (hhi : st.currentStateIndex ≤ (st.canvasStates.length : Int) - 1) :
    saveStateCommit st v =
      { canvasStates := st.canvasStates.take (st.currentStateIndex + 1).toNat ++ [v],
        currentStateIndex := st.currentStateIndex + 1 } := by
  unfold saveStateCommit saveStateTrimmed
  congr 1
  have htrim : (if st.currentStateIndex < (st.canvasStates.length : Int) - 1 then
        jsSpliceDeleteFrom st.canvasStates (st.currentStateIndex + 1)
      else st.canvasStates)
      = st.canvasStates.take (st.currentStateIndex + 1).toNat := by
    by_cases hcut : st.currentStateIndex < (st.canvasStates.length : Int) - 1
    · rw [if_pos hcut]
      unfold jsSpliceDeleteFrom
      rw [if_neg (by omega)]
    · rw [if_neg hcut]
      have hlen : (st.currentStateIndex + 1).toNat = st.canvasStates.length := by
        omega
      rw [hlen, List.take_length]
  rw [htrim]
  unfold jsArraySet
  rw [if_neg (by omega)]
  have hlt : ¬((st.currentStateIndex + 1).toNat <
      (st.canvasStates.take (st.currentStateIndex + 1).toNat).length) := by
    rw [List.length_take]
    omega
  rw [if_neg hlt]
  have hz : (st.currentStateIndex + 1).toNat -
      (st.canvasStates.take (st.currentStateIndex + 1).toNat).length = 0 := by
    rw [List.length_take]
    omega
  rw [hz]
  simp

lemma histInv_saveStateCommit (st : ServerState) (v : Snapshot)
    (h : histInv st) : histInv (saveStateCommit st v) := by
  obtain ⟨h1, h2⟩ := h
  rw [saveStateCommit_eq st v h1 h2]
  unfold histInv
  dsimp only
  rw [List.length_append, List.length_take]
  simp only [List.length_singleton]
  constructor <;> omega

lemma histInv_stepOp (st : ServerState) (op : HistOp) (h : histInv st) :
    histInv (stepOp st op) := by
  obtain ⟨h1, h2⟩ := h
  cases op with
  | push d =>
    unfold stepOp
    by_cases hd : jsTruthy (opToMessage (HistOp.push d)).stateData = true
    · rw [handleMessage_saveState_truthy "u" "c" st _ rfl hd]
      exact histInv_saveStateCommit st _ ⟨h1, h2⟩
    · rw [handleMessage_saveState_falsy "u" "c" st _ rfl (by simpa using hd)]
      exact ⟨h1, h2⟩
  | undo =>
    unfold stepOp
    rw [handleMessage_undo "u" "c" st _ rfl]
    split_ifs with hpos hzero
    · exact ⟨show -1 ≤ st.currentStateIndex - 1 by omega,
        show st.currentStateIndex - 1 ≤ (st.canvasStates.length : Int) - 1 by omega⟩
    · exact ⟨show -1 ≤ (-1 : Int) by omega,
        show (-1 : Int) ≤ (st.canvasStates.length : Int) - 1 by omega⟩
    · exact ⟨h1, h2⟩
  | redo =>
    unfold stepOp
    rw [handleMessage_redo "u" "c" st _ rfl]
    split_ifs with hlt
    · exact ⟨show -1 ≤ st.currentStateIndex + 1 by omega,
        show st.currentStateIndex + 1 ≤ (st.canvasStates.length : Int) - 1 by omega⟩
    · exact ⟨h1, h2⟩

lemma histInv_runOps (st : ServerState) (ops : List HistOp) (h : histInv st) :
    histInv (runOps st ops) := by
  induction ops generalizing st with
  | nil => exact h
  | cons op ops ih => exact ih (stepOp st op) (histInv_stepOp st op h)

lemma histInv_initial : histInv initialState := by
  constructor <;> norm_num [initialState, histInv]

/-- C1 (counterexample): a `draw-end` message that carries no `userId` field
produces no broadcast at all, although the claim demands a broadcast
`save-state` request for every `draw-end` regardless of its fields. -/
theorem drawEnd_missing_userId_counterexample :
    (handleMessage "u1" "#FF6B6B" initialState { type := "draw-end" }).broadcasts = []
    ∧ (handleMessage "u1" "#FF6B6B" initialState
        { type := "draw-end" }).broadcasts
        ≠ [(WireMessage.saveStateReq "u1", none)] := by
  decide

/-- C1 (amended): a `draw-end` event never mutates the history, and it
broadcasts a `save-state` request carrying the sender's id (to all
participants, no exclusion) exactly when the inbound message's `userId` field
equals the connection's server-assigned id; otherwise nothing is broadcast. -/
theorem drawEnd_saveStateRequest (uid userColor : String) (st : ServerState)
    (m : InMessage) (ht : m.type = "draw-end") :
    (handleMessage uid userColor st m).state = st
    ∧ (handleMessage uid userColor st m).broadcasts
        = if m.userId = some uid then [(WireMessage.saveStateReq uid, none)]
          else [] := by
  rw [handleMessage_drawEnd uid userColor st m ht]
  by_cases h : m.userId = some uid
  · rw [if_pos h, if_pos h]
    exact ⟨rfl, rfl⟩
  · rw [if_neg h, if_neg h]
    exact ⟨rfl, rfl⟩

theorem drawEnd_saveStateRequest_witness :
    (handleMessage "u1" "#FF6B6B" initialState
        { type := "draw-end", userId := some "u1" }).state = initialState
    ∧ (handleMessage "u1" "#FF6B6B" initialState
        { type := "draw-end", userId := some "u1" }).broadcasts
        = [(WireMessage.saveStateReq "u1", none)] := by
  have h := drawEnd_saveStateRequest "u1" "#FF6B6B" initialState
    { type := "draw-end", userId := some "u1" } rfl
  exact ⟨h.1, h.2.trans (by decide)⟩

/-- C2: for every sequence of `save-state` commits (payload present)
interleaved arbitrarily with `undo` and `redo` events, starting from the
initial empty history (length 0, cursor -1), the invariant
`-1 ≤ currentStateIndex ≤ canvasStates.length - 1` holds after every
transition (every prefix of such a sequence is itself such a sequence). -/
theorem history_cursor_invariant (ops : List HistOp) :
    histInv (runOps initialState ops) :=
  histInv_runOps initialState ops histInv_initial

set_option maxRecDepth 8000 in
/-- C3 (counterexample): 55 consecutive truthy `save-state` commits from the
initial state leave 55 history entries with cursor 54 — the commit path
applies no retention cap, so the claimed post-state (length 50, cursor 49)
does not hold. -/
theorem push_cap_counterexample :
    (runOps initialState
        (List.replicate 55 (HistOp.push "a"))).canvasStates.length = 55
    ∧ ¬((runOps initialState
          (List.replicate 55 (HistOp.push "a"))).canvasStates.length = 50
        ∧ (runOps initialState
            (List.replicate 55 (HistOp.push "a"))).currentStateIndex = 49) := by
  decide

set_option maxRecDepth 8000 in
/-- C3 (amended): the `save-state` commit applies no retention cap — after 55
consecutive pushes with no undo the history holds 55 entries with cursor
54 — and the cap is enforced only by the periodic sweep, after whose next
firing the history holds 50 entries with cursor 49. -/
theorem cap_enforced_by_sweep :
    (runOps initialState
        (List.replicate 55 (HistOp.push "a"))).canvasStates.length = 55
    ∧ (runOps initialState
        (List.replicate 55 (HistOp.push "a"))).currentStateIndex = 54
    ∧ (retentionSweep (runOps initialState
        (List.replicate 55 (HistOp.push "a")))).canvasStates.length = 50
    ∧ (retentionSweep (runOps initialState
        (List.replicate 55 (HistOp.push "a")))).currentStateIndex = 49 := by
  decide

/-- C4: a `save-state` commit with truthy payload made while
`current < length - 1` keeps exactly the entries at indices `≤ current` and
appends the new snapshot with the cursor incremented, broadcasting nothing;
concretely, pushes `A`, `B`, `C`, one `undo`, then push `D` yield history
`[A, B, D]` with cursor 2. -/
theorem saveState_truncate_append (uid userColor : String) (st : ServerState)
    (m : InMessage) (ht : m.type = "save-state")
    (htr : jsTruthy m.stateData = true) (hlo : -1 ≤ st.currentStateIndex)
    (hhi : st.currentStateIndex < (st.canvasStates.length : Int) - 1) :
    ((handleMessage uid userColor st m).state.canvasStates
        = st.canvasStates.take (st.currentStateIndex + 1).toNat
            ++ [m.stateData.getD ""]
      ∧ (handleMessage uid userColor st m).state.currentStateIndex
          = st.currentStateIndex + 1
      ∧ (handleMessage uid userColor st m).broadcasts = [])
    ∧ runOps initialState
        [HistOp.push "A", HistOp.push "B", HistOp.push "C", HistOp.undo,
          HistOp.push "D"]
        = { canvasStates := ["A", "B", "D"], currentStateIndex := 2 } := by
  refine ⟨?_, by decide⟩
  have hc := handleMessage_saveState_truthy uid userColor st m ht htr
  rw [hc, saveStateCommit_eq st _ hlo (by omega)]
  exact ⟨rfl, rfl, rfl⟩

theorem saveState_truncate_append_witness :
    (handleMessage "u" "#FF6B6B"
        { canvasStates := ["A", "B", "C"], currentStateIndex := 1 }
        { type := "save-state", stateData := some "D" }).state.canvasStates
      = ["A", "B", "D"]
    ∧ (handleMessage "u" "#FF6B6B"
        { canvasStates := ["A", "B", "C"], currentStateIndex := 1 }
        { type := "save-state", stateData := some "D" }).state.currentStateIndex
      = 2 := by
  have h := saveState_truncate_append "u" "#FF6B6B"
    { canvasStates := ["A", "B", "C"], currentStateIndex := 1 }
    { type := "save-state", stateData := some "D" } rfl (by decide) (by decide)
    (by decide)
  exact ⟨h.1.1.trans (by decide), h.1.2.1.trans (by decide)⟩

/-- C5 (counterexample): for the pre-trim state with 52 entries and cursor 0
the sweep lowers the cursor by `k = 2` to -2, below the valid floor of -1,
and the cursor no longer refers to the snapshot it referred to before
(`some "a"` before the trim, `none` after). -/
theorem sweep_cursor_below_floor_counterexample :
    50 < (List.replicate 52 "a").length
    ∧ (retentionSweep ⟨List.replicate 52 "a", 0⟩).currentStateIndex = -2
    ∧ ¬(-1 ≤ (retentionSweep ⟨List.replicate 52 "a", 0⟩).currentStateIndex)
    ∧ jsIndex (List.replicate 52 "a") 0 = some "a"
    ∧ jsIndex (retentionSweep ⟨List.replicate 52 "a", 0⟩).canvasStates
        (retentionSweep ⟨List.replicate 52 "a", 0⟩).currentStateIndex = none := by
  decide

/-- C5 (amended): a sweep on a state with `length > 50` always lowers the
cursor by exactly `k = length - 50` and trims the history to 50 entries;
when the pre-trim cursor is at least `k` it still refers to the same snapshot
afterwards, and (given it was at most `length - 1`) stays within
`-1 ≤ cursor ≤ 49`; a pre-trim cursor of exactly `k - 1` lands on the `-1`
floor, and one smaller than `k - 1` is driven below it. -/
theorem retentionSweep_shift (st : ServerState)
    (h50 : 50 < st.canvasStates.length) :
    (retentionSweep st).currentStateIndex
        = st.currentStateIndex - ((st.canvasStates.length : Int) - 50)
    ∧ (retentionSweep st).canvasStates.length = 50
    ∧ ((st.canvasStates.length : Int) - 50 ≤ st.currentStateIndex →
        jsIndex (retentionSweep st).canvasStates
            (retentionSweep st).currentStateIndex
          = jsIndex st.canvasStates st.currentStateIndex)
    ∧ ((st.canvasStates.length : Int) - 50 ≤ st.currentStateIndex →
        st.currentStateIndex ≤ (st.canvasStates.length : Int) - 1 →
        -1 ≤ (retentionSweep st).currentStateIndex
          ∧ (retentionSweep st).currentStateIndex ≤ 49)
    ∧ (st.currentStateIndex = (st.canvasStates.length : Int) - 50 - 1 →
        (retentionSweep st).currentStateIndex = -1)
    ∧ (st.currentStateIndex < (st.canvasStates.length : Int) - 50 - 1 →
        (retentionSweep st).currentStateIndex < -1) := by
  unfold retentionSweep
  rw [if_pos h50]
  refine ⟨rfl, ?_, ?_, ?_, ?_, ?_⟩
  · dsimp only
    rw [List.length_drop]
    omega
  · intro hk
    dsimp only
    unfold jsIndex
    rw [if_pos (by omega), if_pos (by omega), List.get?_drop]
    congr 1
    omega
  · intro hk hhi
    dsimp only
    constructor <;> omega
  · intro hk
    dsimp only
    omega
  · intro hk
    dsimp only
    omega

theorem retentionSweep_shift_witness :
    (retentionSweep ⟨List.replicate 52 "a", 51⟩).currentStateIndex = 49
    ∧ (retentionSweep ⟨List.replicate 52 "a", 51⟩).canvasStates.length = 50
    ∧ (retentionSweep ⟨List.replicate 51 "a", 0⟩).currentStateIndex = -1 := by
  have h := retentionSweep_shift ⟨List.replicate 52 "a", 51⟩ (by decide)
  have h' := retentionSweep_shift ⟨List.replicate 51 "a", 0⟩ (by decide)
  exact ⟨h.1.trans (by decide), h.2.1, h'.2.2.2.2.1 (by decide)⟩

/-- C6: the `undo` event obeys exactly the three-way case split: a cursor
`> 0` is decremented and the snapshot at the new cursor is broadcast; a
cursor `= 0` becomes -1 and a null snapshot is broadcast; a negative cursor
leaves the state unchanged with no broadcast. -/
theorem undo_case_split (uid userColor : String) (st : ServerState)
    (m : InMessage) (ht : m.type = "undo") :
    (0 < st.currentStateIndex →
      handleMessage uid userColor st m
        = { state := { st with currentStateIndex := st.currentStateIndex - 1 },
            broadcasts := [(WireMessage.undoB (st.currentStateIndex - 1)
              (jsIndex st.canvasStates (st.currentStateIndex - 1)), none)] })
    ∧ (st.currentStateIndex = 0 →
      handleMessage uid userColor st m
        = { state := { st with currentStateIndex := -1 },
            broadcasts := [(WireMessage.undoB (-1) none, none)] })
    ∧ (st.currentStateIndex < 0 →
      handleMessage uid userColor st m = { state := st, broadcasts := [] }) := by
  rw [handleMessage_undo uid userColor st m ht]
  refine ⟨fun h => ?_, fun h => ?_, fun h => ?_⟩
  · rw [if_pos h]
  · rw [if_neg (by omega), if_pos h]
  · rw [if_neg (by omega), if_neg (by omega)]

theorem undo_case_split_witness :
    handleMessage "u" "#FF6B6B"
        { canvasStates := ["a", "b"], currentStateIndex := 1 } { type := "undo" }
      = { state := { canvasStates := ["a", "b"], currentStateIndex := 0 },
          broadcasts := [(WireMessage.undoB 0 (some "a"), none)] } := by
  have h := undo_case_split "u" "#FF6B6B"
    { canvasStates := ["a", "b"], currentStateIndex := 1 } { type := "undo" } rfl
  exact (h.1 (by decide)).trans (by decide)

/-- C7: the `redo` event with cursor `< length - 1` increments the cursor and
broadcasts the snapshot stored at the new cursor; with cursor `= length - 1`
it changes nothing and broadcasts nothing. -/
theorem redo_case_split (uid userColor : String) (st : ServerState)
    (m : InMessage) (ht : m.type = "redo") :
    (st.currentStateIndex < (st.canvasStates.length : Int) - 1 →
      handleMessage uid userColor st m
        = { state := { st with currentStateIndex := st.currentStateIndex + 1 },
            broadcasts := [(WireMessage.redoB (st.currentStateIndex + 1)
              (jsIndex st.canvasStates (st.currentStateIndex + 1)), none)] })
    ∧ (st.currentStateIndex = (st.canvasStates.length : Int) - 1 →
      handleMessage uid userColor st m = { state := st, broadcasts := [] }) := by
  rw [handleMessage_redo uid userColor st m ht]
  refine ⟨fun h => ?_, fun h => ?_⟩
  · rw [if_pos h]
  · rw [if_neg (by omega)]

theorem redo_case_split_witness :
    handleMessage "u" "#FF6B6B"
        { canvasStates := ["a", "b"], currentStateIndex := 0 } { type := "redo" }
      = { state := { canvasStates := ["a", "b"], currentStateIndex := 1 },
          broadcasts := [(WireMessage.redoB 1 (some "b"), none)] } := by
  have h := redo_case_split "u" "#FF6B6B"
    { canvasStates := ["a", "b"], currentStateIndex := 0 } { type := "redo" } rfl
  exact (h.1 (by decide)).trans (by decide)

/-- C8: a `draw-start` or `draw-move` from participant X leaves the history
unchanged and is broadcast excluding X, unmodified except that `userId` is
overwritten with X's server-assigned id; the recipients of such a broadcast
are exactly the registered participants with an open socket other than X. -/
theorem draw_relay_excludes_sender (uid userColor : String) (st : ServerState)
    (m : InMessage) (conns : List Participant) (p : Participant)
    (ht : m.type = "draw-start" ∨ m.type = "draw-move") :
    (handleMessage uid userColor st m).state = st
    ∧ (handleMessage uid userColor st m).broadcasts
        = [(WireMessage.relayDraw { m with userId := some uid }, some uid)]
    ∧ (p ∈ broadcastTargets conns (some uid)
        ↔ p ∈ conns ∧ p.userId ≠ uid ∧ p.wsOpen = true) := by
  rw [handleMessage_draw uid userColor st m ht]
  refine ⟨rfl, rfl, ?_⟩
  unfold broadcastTargets
  rw [List.mem_filter]
  simp [and_assoc]

theorem draw_relay_excludes_sender_witness :
    (handleMessage "u1" "#FF6B6B" initialState
        { type := "draw-move", userId := some "spoof", x := some 3,
          y := some 4 }).broadcasts
      = [(WireMessage.relayDraw
          { type := "draw-move", userId := some "u1", x := some 3,
            y := some 4 }, some "u1")]
    ∧ ((⟨"u2", "#4ECDC4", "User 2", true⟩ : Participant)
        ∈ broadcastTargets
          [⟨"u1", "#FF6B6B", "User 1", true⟩, ⟨"u2", "#4ECDC4", "User 2", true⟩,
            ⟨"u3", "#45B7D1", "User 3", false⟩] (some "u1")
       ↔ (⟨"u2", "#4ECDC4", "User 2", true⟩ : Participant)
          ∈ [⟨"u1", "#FF6B6B", "User 1", true⟩, ⟨"u2", "#4ECDC4", "User 2", true⟩,
            ⟨"u3", "#45B7D1", "User 3", false⟩]
          ∧ "u2" ≠ "u1" ∧ true = true) := by
  have h := draw_relay_excludes_sender "u1" "#FF6B6B" initialState
    { type := "draw-move", userId := some "spoof", x := some 3, y := some 4 }
    [⟨"u1", "#FF6B6B", "User 1", true⟩, ⟨"u2", "#4ECDC4", "User 2", true⟩,
      ⟨"u3", "#45B7D1", "User 3", false⟩]
    ⟨"u2", "#4ECDC4", "User 2", true⟩ (Or.inr rfl)
  exact ⟨h.2.1.trans (by decide), h.2.2⟩

/-- C9: an inbound frame that does not parse as a structured record is
swallowed by the handler's catch: the handler — a total function, so no error
propagates and the connection stays open — returns the state unchanged and
broadcasts nothing. -/
theorem malformed_message_swallowed (uid userColor : String) (st : ServerState) :
    handleRawData uid userColor st none = { state := st, broadcasts := [] } :=
  rfl

/-- C10: a `save-state` message whose `stateData` is absent or null (`none`)
or the empty string leaves the state unchanged and broadcasts nothing, while
any non-empty payload commits, incrementing the cursor. -/
theorem saveState_falsy_noop (uid userColor : String) (st : ServerState)
    (m : InMessage) (ht : m.type = "save-state")
    (hfalsy : m.stateData = none ∨ m.stateData = some "") :
    handleMessage uid userColor st m = { state := st, broadcasts := [] }
    ∧ ∀ s : Snapshot, s ≠ "" →
      (handleMessage uid userColor st
          { m with stateData := some s }).state.currentStateIndex
        = st.currentStateIndex + 1 := by
  constructor
  · apply handleMessage_saveState_falsy uid userColor st m ht
    rcases hfalsy with h | h <;> simp [jsTruthy, h]
  · intro s hs
    rw [handleMessage_saveState_truthy uid userColor st
      { m with stateData := some s } ht (by simp [jsTruthy, hs])]
    rfl

theorem saveState_falsy_noop_witness :
    handleMessage "u" "#FF6B6B" { canvasStates := ["a"], currentStateIndex := 0 }
        { type := "save-state", stateData := some "" }
      = { state := { canvasStates := ["a"], currentStateIndex := 0 },
          broadcasts := [] }
    ∧ (handleMessage "u" "#FF6B6B"
        { canvasStates := ["a"], currentStateIndex := 0 }
        { type := "save-state", stateData := some "b" }).state.currentStateIndex
      = 1 := by
  have h := saveState_falsy_noop "u" "#FF6B6B"
    { canvasStates := ["a"], currentStateIndex := 0 }
    { type := "save-state", stateData := some "" } rfl (Or.inr rfl)
  refine ⟨h.1, ?_⟩
  have h2 := h.2 "b" (by decide)
  exact h2.trans (by decide)
